import Mathlib

/-!
# Progressive render pipeline of `browser.js`

A shallow embedding of the browser entry point `module.exports = async (opts) => ...`
of `src/browser.js` and of the step hook it hands to the engine.

* JavaScript values that can occur as option values are the closed type `Value`.
* The host page (its canvas elements) is `Host`; the private scratch canvas created
  by the entry point lives next to it in `World`, together with the trace of the
  calls the entry point and its step hook issue.
* `async`/`await` is sequential evaluation: a rejected promise is `Except.error`,
  and the world reached at the moment of rejection is kept next to the error.
* The collaborators `./lib/browser-context` and `./lib/primitive` are not part of
  the file under study; they are the fields of `Env`, and every statement below holds
  for all of them.
* DOM calls (`putImageData`, `drawImage`, assignments to `width` and `height`,
  `getContext`) are recorded in the trace with exactly the arguments the source
  passes.  `putImageData(imagedata, dx, dy)` requires `dx` and `dy`: a call without
  them throws a `TypeError` and paints nothing.
* The `ow` validator is modelled as far as lines 49-54 use it: `.label(name)` is a
  method of a plain predicate such as `ow.object`; the value of `ow.any(...)` has no
  such method.
* Numbers are integers here; this layer inspects an option value only for its
  truthiness and its type.
-/

namespace Primitive

/-! ## Data model -/

/-- Errors a run can reject with.  `argumentError` is what the `ow` validator throws
(the specification calls it `ValidationError`); `typeError` is the language-level
`TypeError`; `external` is anything raised by a collaborator or a user hook. -/
inductive Err
  | typeError (msg : String)
  | argumentError (label : String)
  | external (code : Nat)
  deriving DecidableEq, Repr

/-- A raster: width, height and pixel samples (`ImageData`, `model.current`). -/
structure Raster where
  width : Nat
  height : Nat
  data : List Nat
  deriving DecidableEq, Repr

/-- The engine-owned model.  Only `current` is read by this layer; `serial` stands for
the rest of the engine state. -/
structure Model where
  current : Raster
  serial : Nat
  deriving DecidableEq, Repr

/-- JavaScript values that may be passed as option values.  Canvas elements and
functions are references (`id`); `object` is any other object.  In this universe the
only values that have a `getContext` method are canvas elements. -/
inductive Value
  | undefined
  | null
  | boolean (b : Bool)
  | number (n : Int)
  | string (s : String)
  | imageData (r : Raster)
  | image (id : Nat)
  | canvas (id : Nat)
  | function (id : Nat)
  | object (id : Nat)
  deriving DecidableEq, Repr

/-- The argument `opts` of the entry point: a configuration object with own
properties, or any other value. -/
inductive Options
  | record (props : List (String × Value))
  | other (v : Value)
  deriving DecidableEq, Repr

/-- One completed `putImageData(image, dx, dy)`. -/
structure Put where
  image : Raster
  offset : Int × Int
  deriving DecidableEq, Repr

/-- The scratch canvas `scratch`: its size and what was written since it was last
resized (assigning `width` or `height` of a canvas clears it). -/
structure Scratch where
  width : Nat
  height : Nat
  written : List Put
  deriving DecidableEq, Repr

/-- A paint operation applied to a host canvas. -/
inductive Paint
  | put (p : Put)
  | blit (source : Scratch) (dx dy : Int) (dw dh : Nat)
  deriving DecidableEq, Repr

/-- A canvas element of the host page. -/
structure Canvas where
  width : Nat
  height : Nat
  paint : List Paint
  deriving DecidableEq, Repr

/-- The host page: its canvas elements, by reference. -/
structure Host where
  canvases : Nat → Canvas

/-- The receiver of a drawing call: the 2D context of a host canvas or of the scratch
canvas. -/
inductive Ref
  | canvas (id : Nat)
  | scratch
  deriving DecidableEq, Repr

/-- The calls issued by the entry point and by its step hook, in program order. -/
inductive Call
  | loadImage (input : Value)
  | loadCanvas (output : Value)
  | getContext (target : Ref)
  | createElement
  | enableContextAntialiasing (ctx : Nat)
  | engine (options : List (String × Value)) (target : Raster)
  | userHook (f : Nat) (m : Model) (step : Nat)
  | putImageData (target : Ref) (image : Raster) (offset : Option (Int × Int))
  | setWidth (target : Ref) (w : Nat)
  | setHeight (target : Ref) (h : Nat)
  | drawImage (ctx : Nat) (source : Ref) (dx dy : Int) (dw dh : Nat)
  deriving DecidableEq, Repr

/-- Everything a run can touch: the host page, the scratch canvas (`none` while the
variable `scratch` is `undefined`), and the trace of issued calls. -/
structure World where
  host : Host
  scratch : Option Scratch
  trace : List Call

/-- The outcome of an awaited computation, with the world it leaves. -/
abbrev Outcome (α : Type) := Except Err α × World

/-- The step-notification signature `(model, stepIndex) -> void`. -/
abbrev Hook := Model → Nat → World → Outcome Unit

/-- A value in the object literal handed to the engine. -/
inductive ArgValue
  | value (v : Value)
  | contextModule
  | target (t : Raster)
  | stepHook (f : Hook)

/-- The collaborators of `browser.js`: the members of `./lib/browser-context` that it
calls, the behaviour of function values when called as step hooks, and the engine
`./lib/primitive`.  `loadCanvas` yields the `canvas` member of its result:
`none` for `undefined`, `some c` for the canvas element `c`. -/
structure Env where
  loadImage : Value → Host → Except Err Raster × Host
  loadCanvas : Value → Host → Except Err (Option Nat) × Host
  enableContextAntialiasing : Nat → Host → Except Err Unit × Host
  callFunction : Nat → Model → Nat → Host → Except Err Unit × Host
  engine : List (String × ArgValue) → World → Outcome Model

/-- The variables captured by the step hook: `ctx` and `canvas` (`none` = `undefined`).
The third captured variable, `scratch`, is `World.scratch`. -/
structure Closure where
  ctx : Option Nat
  canvas : Option Nat
  deriving DecidableEq, Repr

/-- What the entry point has computed when it reaches the engine call. -/
structure Prepared where
  rest : List (String × Value)
  target : Raster
  closure : Closure
  deriving DecidableEq, Repr

/-! ## JavaScript and DOM primitives -/

/-- JavaScript truthiness. -/
def truthy : Value → Bool
  | .undefined => false
  | .null => false
  | .boolean b => b
  | .number n => n ≠ 0
  | .string s => s ≠ ""
  | _ => true

/-- Own-property lookup in an object given by its list of properties. -/
def lookupProp {α : Type} (k : String) : List (String × α) → Option α
  | [] => none
  | p :: ps => if p.1 = k then some p.2 else lookupProp k ps

/-- Object-literal assignment of a key: `{...o, k: v}`. -/
def setProp {α : Type} (o : List (String × α)) (k : String) (v : α) :
    List (String × α) :=
  o.filter (fun p => p.1 ≠ k) ++ [(k, v)]

/-- Property read `opts.k`: a `TypeError` on `undefined` and `null`, the own property
of a configuration object, `undefined` otherwise. -/
def Options.read (opts : Options) (k : String) : Except Err Value :=
  match opts with
  | .other .undefined => .error (.typeError "cannot read properties of undefined")
  | .other .null => .error (.typeError "cannot read properties of null")
  | .other _ => .ok .undefined
  | .record ps => .ok ((lookupProp k ps).getD .undefined)

/-- The destructuring `const { input, output, ...rest } = opts` (lines 43-47). -/
def destructure (opts : Options) :
    Except Err (Value × Value × List (String × Value)) :=
  match opts with
  | .other .undefined => .error (.typeError "cannot destructure undefined")
  | .other .null => .error (.typeError "cannot destructure null")
  | .other _ => .ok (.undefined, .undefined, [])
  | .record ps =>
    .ok ((lookupProp "input" ps).getD .undefined,
         (lookupProp "output" ps).getD .undefined,
         ps.filter (fun p => p.1 ≠ "input" ∧ p.1 ≠ "output"))

/-- The predicate `ow.object`: objects and functions, not `null`. -/
def owObject : Options → Bool
  | .record _ => true
  | .other (.imageData _) => true
  | .other (.image _) => true
  | .other (.canvas _) => true
  | .other (.function _) => true
  | .other (.object _) => true
  | .other _ => false

/-- The plain predicates of `ow` that lines 49-54 name. -/
inductive OwPredicate
  | object
  | stringNonEmpty
  | instanceOfImageData
  | instanceOfImage
  deriving DecidableEq, Repr

/-- What a predicate expression evaluates to: a plain predicate with its label, or the
value of `ow.any(...)` over plain predicates. -/
inductive OwValue
  | predicate (p : OwPredicate) (label : Option String)
  | any (ps : List OwPredicate)
  deriving DecidableEq, Repr

/-- The error of calling `.label` on the value of `ow.any(...)`. -/
def labelIsNotAFunction : Err := .typeError "ow.any(...).label is not a function"

/-- The error of `putImageData` called without `dx, dy`. -/
def offsetRequired : Err :=
  .typeError "putImageData: 3 arguments required, but only 1 present"

/-- The method call `.label(name)`: plain predicates have it, the value of
`ow.any(...)` does not. -/
def OwValue.label : OwValue → String → Except Err OwValue
  | .predicate p _, name => .ok (.predicate p (some name))
  | .any _, _ => .error labelIsNotAFunction

/-- Whether a plain predicate accepts a value. -/
def OwPredicate.holds : OwPredicate → Options → Bool
  | .object, v => owObject v
  | .stringNonEmpty, .other (.string s) => s ≠ ""
  | .instanceOfImageData, .other (.imageData _) => true
  | .instanceOfImage, .other (.image _) => true
  | _, _ => false

/-- The call `ow(value, predicate)`: it throws the validator error, with the label of
the predicate, when the value is not accepted. -/
def ow (value : Options) : OwValue → Except Err Unit
  | .predicate p label =>
    if p.holds value then .ok () else .error (.argumentError (label.getD ""))
  | .any ps =>
    if ps.any (fun p => p.holds value) then .ok () else .error (.argumentError "")

/-- The call `output.getContext('2d')` (line 58): the 2D context of a canvas element;
a `TypeError` on `undefined`, `null` and on every value without that method. -/
def getContext2d : Value → Except Err (Option Nat)
  | .canvas id => .ok (some id)
  | .undefined => .error (.typeError "cannot read properties of undefined")
  | .null => .error (.typeError "cannot read properties of null")
  | _ => .error (.typeError "output.getContext is not a function")

/-- A freshly created canvas element (300 x 150, blank). -/
def Scratch.blank : Scratch := ⟨300, 150, []⟩

/-- The assignment `scratch.width = w`; the canvas is cleared. -/
def Scratch.setWidth (s : Scratch) (w : Nat) : Scratch := ⟨w, s.height, []⟩

/-- The assignment `scratch.height = h`; the canvas is cleared. -/
def Scratch.setHeight (s : Scratch) (h : Nat) : Scratch := ⟨s.width, h, []⟩

/-- The call `ctx2.putImageData(image, dx, dy)` on the scratch canvas; without
`dx, dy` it throws. -/
def Scratch.putImageData (s : Scratch) (image : Raster) :
    Option (Int × Int) → Except Err Scratch
  | none => .error offsetRequired
  | some o => .ok ⟨s.width, s.height, s.written ++ [⟨image, o⟩]⟩

/-- Apply a paint operation to the host canvas `k`; size and other canvases are
untouched. -/
def Host.paintOn (h : Host) (k : Nat) (op : Paint) : Host :=
  ⟨fun j => if j = k then
      ⟨(h.canvases k).width, (h.canvases k).height, (h.canvases k).paint ++ [op]⟩
    else h.canvases j⟩

/-- The call `ctx.putImageData(image, dx, dy)` on the context of host canvas `k`;
without `dx, dy` it throws. -/
def Host.putImageData (h : Host) (k : Nat) (image : Raster) :
    Option (Int × Int) → Except Err Host
  | none => .error offsetRequired
  | some o => .ok (h.paintOn k (.put ⟨image, o⟩))

/-- The call `ctx.drawImage(scratch, dx, dy, dw, dh)` on the context of host
canvas `k`. -/
def Host.drawImage (h : Host) (k : Nat) (src : Scratch) (dx dy : Int) (dw dh : Nat) :
    Host :=
  h.paintOn k (.blit src dx dy dw dh)

/-- Append a call to the trace. -/
def World.log (w : World) (c : Call) : World := ⟨w.host, w.scratch, w.trace ++ [c]⟩

/-- Replace the host part of the world. -/
def World.setHost (w : World) (h : Host) : World := ⟨h, w.scratch, w.trace⟩

/-- Replace the scratch canvas. -/
def World.setScratch (w : World) (s : Option Scratch) : World := ⟨w.host, s, w.trace⟩

/-! ## The step hook (lines 66-86) -/

/-- Line 67: `if (opts.step) await opts.step(model, step)`. -/
def userStage (env : Env) (opts : Options) (m : Model) (step : Nat) (w : World) :
    Outcome Unit :=
  match opts.read "step" with
  | .error e => (.error e, w)
  | .ok v =>
    if truthy v then
      match v with
      | .function f =>
        let w1 := w.log (.userHook f m step)
        ((env.callFunction f m step w1.host).1,
          w1.setHost (env.callFunction f m step w1.host).2)
      | _ => (.error (.typeError "opts.step is not a function"), w)
    else (.ok (), w)

/-- Lines 69-85: the redraw of `model.current` onto the output canvas. -/
def redraw (cl : Closure) (m : Model) (w : World) : Outcome Unit :=
  match cl.ctx with
  | none => (.ok (), w)
  | some k =>
    let width := m.current.width
    let height := m.current.height
    match cl.canvas with
    | none => (.error (.typeError "cannot read properties of undefined"), w)
    | some c =>
      if (w.host.canvases c).width = width ∧ (w.host.canvases c).height = height then
        -- ctx.putImageData(model.current)
        let w1 := w.log (.putImageData (.canvas k) m.current none)
        match w1.host.putImageData k m.current none with
        | .error e => (.error e, w1)
        | .ok h => (.ok (), w1.setHost h)
      else
        match w.scratch with
        | none => (.error (.typeError "cannot set properties of undefined"), w)
        | some s =>
          -- scratch.width = width; scratch.height = height
          let w1 := (w.setScratch (some (s.setWidth width))).log (.setWidth .scratch width)
          let w2 := (w1.setScratch (some ((s.setWidth width).setHeight height))).log
            (.setHeight .scratch height)
          -- const ctx2 = scratch.getContext('2d'); ctx2.putImageData(model.current)
          let w3 := w2.log (.getContext .scratch)
          let w4 := w3.log (.putImageData .scratch m.current none)
          match ((s.setWidth width).setHeight height).putImageData m.current none with
          | .error e => (.error e, w4)
          | .ok s3 =>
            let w5 := w4.setScratch (some s3)
            -- ctx.drawImage(scratch, 0, 0, canvas.width, canvas.height)
            let dw := (w5.host.canvases c).width
            let dh := (w5.host.canvases c).height
            (.ok (), (w5.setHost (w5.host.drawImage k s3 0 0 dw dh)).log
              (.drawImage k .scratch 0 0 dw dh))

/-- Lines 66-86: the composed step hook `onStep: async (model, step) => ...`. -/
def onStep (env : Env) (opts : Options) (cl : Closure) : Hook := fun m step w =>
  match userStage env opts m step w with
  | (.error e, w1) => (.error e, w1)
  | (.ok (), w1) => redraw cl m w1

/-! ## The entry point (lines 42-90) -/

/-- Lines 56-60: input loading and output resolution. -/
def resolve (env : Env) (input output : Value) (rest : List (String × Value))
    (w : World) : Outcome Prepared :=
  -- const target = await context.loadImage(input)
  let w1 := w.log (.loadImage input)
  match env.loadImage input w1.host with
  | (.error e, h1) => (.error e, w1.setHost h1)
  | (.ok target, h1) =>
    -- const { canvas } = context.loadCanvas(output, 'output')
    let w2 := (w1.setHost h1).log (.loadCanvas output)
    match env.loadCanvas output w2.host with
    | (.error e, h2) => (.error e, w2.setHost h2)
    | (.ok canvas, h2) =>
      let w3 := w2.setHost h2
      -- const ctx = output.getContext('2d')
      match getContext2d output with
      | .error e => (.error e, w3)
      | .ok ctx =>
        let w4 := match ctx with
          | some k => w3.log (.getContext (.canvas k))
          | none => w3
        -- const scratch = canvas && document.createElement('canvas')
        let w5 := match canvas with
          | some _ => (w4.setScratch (some Scratch.blank)).log .createElement
          | none => w4.setScratch none
        -- if (ctx) context.enableContextAntialiasing(ctx)
        match ctx with
        | none => (.ok ⟨rest, target, ⟨ctx, canvas⟩⟩, w5)
        | some k =>
          let w6 := w5.log (.enableContextAntialiasing k)
          match env.enableContextAntialiasing k w6.host with
          | (.error e, h6) => (.error e, w6.setHost h6)
          | (.ok (), h6) => (.ok ⟨rest, target, ⟨ctx, canvas⟩⟩, w6.setHost h6)

/-- Lines 43-60: destructuring, the two `ow` checks, then `resolve`. -/
def setup (env : Env) (opts : Options) (w : World) : Outcome Prepared :=
  match destructure opts with
  | .error e => (.error e, w)
  | .ok (input, output, rest) =>
    -- ow(opts, ow.object.label('opts'))
    match (OwValue.predicate .object none).label "opts" with
    | .error e => (.error e, w)
    | .ok objectPredicate =>
      match ow opts objectPredicate with
      | .error e => (.error e, w)
      | .ok () =>
        -- ow(input, ow.any(ow.string.nonEmpty, ...instanceOf(ImageData),
        --   ...instanceOf(Image)).label('input'))
        match (OwValue.any [.stringNonEmpty, .instanceOfImageData,
            .instanceOfImage]).label "input" with
        | .error e => (.error e, w)
        | .ok inputPredicate =>
          match ow (.other input) inputPredicate with
          | .error e => (.error e, w)
          | .ok () => resolve env input output rest w

/-- Lines 62-87: the object literal
`{ ...rest, context, target, onStep: async (model, step) => ... }`. -/
def engineArgs (env : Env) (opts : Options) (p : Prepared) : List (String × ArgValue) :=
  setProp
    (setProp
      (setProp (p.rest.map (fun q => (q.1, ArgValue.value q.2))) "context"
        ArgValue.contextModule)
      "target" (ArgValue.target p.target))
    "onStep" (ArgValue.stepHook (onStep env opts p.closure))

/-- The entry point `module.exports = async (opts) => ...`. -/
def primitive (env : Env) (opts : Options) (w : World) : Outcome Model :=
  match setup env opts w with
  | (.error e, w1) => (.error e, w1)
  | (.ok p, w1) =>
    env.engine (engineArgs env opts p) (w1.log (.engine p.rest p.target))

/-! ## Trace observers and sample collaborators -/

/-- The calls by which the step hook redraws: drawing calls and scratch resizes. -/
def Call.isRedraw : Call → Bool
  | .putImageData _ _ _ => true
  | .drawImage _ _ _ _ _ _ => true
  | .setWidth _ _ => true
  | .setHeight _ _ => true
  | _ => false

/-- Blits. -/
def Call.isDrawImage : Call → Bool
  | .drawImage _ _ _ _ _ _ => true
  | _ => false

/-- Engine invocations. -/
def Call.isEngine : Call → Bool
  | .engine _ _ => true
  | _ => false

/-- Invocations of a function value as user hook. -/
def Call.isUserHook : Call → Bool
  | .userHook _ _ _ => true
  | _ => false

/-- The size of host canvas `c`. -/
def Host.size (h : Host) (c : Nat) : Nat × Nat := ((h.canvases c).width, (h.canvases c).height)

/-- The calls a redraw issues for a surface of size `sw` x `sh` with context `k` and a
raster `r`, as read off lines 72-82: the direct write on `ctx` when the sizes agree,
otherwise the resize of the scratch canvas to the raster size and the write on its
context. -/
def redrawCalls (k sw sh : Nat) (r : Raster) : List Call :=
  if sw = r.width ∧ sh = r.height then
    [.putImageData (.canvas k) r none]
  else
    [.setWidth .scratch r.width, .setHeight .scratch r.height, .getContext .scratch,
     .putImageData .scratch r none]

/-- A sample raster of size 2 x 2. -/
def sampleRaster : Raster := ⟨2, 2, [255, 0, 0, 255]⟩

/-- A sample model whose working buffer is `sampleRaster`. -/
def sampleModel : Model := ⟨sampleRaster, 0⟩

/-- A sample host page: canvas 0 has the size of `sampleRaster`, every other canvas is
4 x 3. -/
def sampleHost : Host := ⟨fun j => if j = 0 then ⟨2, 2, []⟩ else ⟨4, 3, []⟩⟩

/-- A sample world: `sampleHost`, a blank scratch canvas, an empty trace. -/
def sampleWorld : World := ⟨sampleHost, some Scratch.blank, []⟩

/-- A host action: every canvas is resized to 2 x 2 (which clears it). -/
def shrinkAll (_h : Host) : Host := ⟨fun _ => ⟨2, 2, []⟩⟩

/-- Sample collaborators.  The loader decodes every input to `sampleRaster`; the
surface resolver maps a canvas element to itself, a selector to canvas 0 and
`undefined` to no canvas; function 1 fails with `external 9`, function 3 resizes
every canvas of the page to 2 x 2, every other function succeeds without effect; the
engine notifies the step hook once (step 0) and resolves to `sampleModel`. -/
def sampleEnv : Env where
  loadImage := fun _ h => (.ok sampleRaster, h)
  loadCanvas := fun v h =>
    match v with
    | .canvas id => (.ok (some id), h)
    | .string _ => (.ok (some 0), h)
    | .undefined => (.ok none, h)
    | _ => (.error (.external 1), h)
  enableContextAntialiasing := fun _ h => (.ok (), h)
  callFunction := fun f _ _ h =>
    if f = 1 then (.error (.external 9), h)
    else if f = 3 then (.ok (), shrinkAll h)
    else (.ok (), h)
  engine := fun args w =>
    match lookupProp "onStep" args with
    | some (.stepHook hook) =>
      match hook sampleModel 0 w with
      | (.error e, w1) => (.error e, w1)
      | (.ok (), w1) => (.ok sampleModel, w1)
    | _ => (.ok sampleModel, w)

/-- A valid configuration: a URL as input, a canvas element as output. -/
def canvasConfig : List (String × Value) :=
  [("input", .string "a.png"), ("output", .canvas 0), ("numSteps", .number 10)]

/-! ## Lemmas on property lists -/

theorem lookupProp_append {α : Type} (k : String) (o o2 : List (String × α)) :
    lookupProp k (o ++ o2) = (lookupProp k o).orElse (fun _ => lookupProp k o2) := by
  induction o with
  | nil => simp [lookupProp]
  | cons p ps ih =>
    by_cases h : p.1 = k
    · simp [lookupProp, h]
    · simp [lookupProp, h, ih]

theorem lookupProp_filter {α : Type} (k : String) (q : String → Bool)
    (o : List (String × α)) (hq : q k = true) :
    lookupProp k (o.filter (fun p => q p.1)) = lookupProp k o := by
  induction o with
  | nil => rfl
  | cons p ps ih =>
    rw [List.filter_cons]
    by_cases h : p.1 = k
    · have hp : q p.1 = true := by rw [h]; exact hq
      rw [if_pos hp]
      simp only [lookupProp, if_pos h]
    · cases hp : q p.1
      · rw [if_neg (by simp)]
        simp only [lookupProp, if_neg h, ih]
      · rw [if_pos rfl]
        simp only [lookupProp, if_neg h, ih]

theorem lookupProp_filter_self {α : Type} (k : String) (q : String → Bool)
    (o : List (String × α)) (hq : q k = false) :
    lookupProp k (o.filter (fun p => q p.1)) = none := by
  induction o with
  | nil => rfl
  | cons p ps ih =>
    rw [List.filter_cons]
    cases hp : q p.1
    · rw [if_neg (by simp)]
      exact ih
    · rw [if_pos rfl]
      have h : ¬ p.1 = k := by
        intro h
        rw [h, hq] at hp
        cases hp
      simp only [lookupProp, if_neg h, ih]

theorem lookupProp_map {α β : Type} (k : String) (f : α → β) (o : List (String × α)) :
    lookupProp k (o.map (fun q => (q.1, f q.2))) = (lookupProp k o).map f := by
  induction o with
  | nil => rfl
  | cons p ps ih =>
    by_cases h : p.1 = k
    · simp [lookupProp, h]
    · simp [lookupProp, h, ih]

theorem lookupProp_setProp_self {α : Type} (k : String) (v : α) (o : List (String × α)) :
    lookupProp k (setProp o k v) = some v := by
  unfold setProp
  rw [lookupProp_append]
  have h := lookupProp_filter_self k (fun s => decide (s ≠ k)) o (by simp)
  simp only [h]
  simp [lookupProp]

theorem lookupProp_setProp_ne {α : Type} (k k2 : String) (v : α) (o : List (String × α))
    (hk : k2 ≠ k) : lookupProp k2 (setProp o k v) = lookupProp k2 o := by
  unfold setProp
  rw [lookupProp_append]
  have h := lookupProp_filter k2 (fun s => decide (s ≠ k)) o (by simp [hk])
  simp only [h]
  cases lookupProp k2 o with
  | some x => rfl
  | none => simp [lookupProp, Ne.symm hk]

/-! ## Lemmas on the step hook -/

theorem redraw_host (cl : Closure) (m : Model) (w : World) :
    (redraw cl m w).2.host = w.host := by
  unfold redraw
  cases cl.ctx with
  | none => rfl
  | some k =>
    cases cl.canvas with
    | none => rfl
    | some c =>
      dsimp only
      split
      · rfl
      · cases w.scratch with
        | none => rfl
        | some s => rfl

theorem redraw_trace (cl : Closure) (m : Model) (w : World) (k c : Nat) (s : Scratch)
    (hctx : cl.ctx = some k) (hcanvas : cl.canvas = some c) (hs : w.scratch = some s) :
    (redraw cl m w).2.trace =
      w.trace ++ redrawCalls k (w.host.canvases c).width (w.host.canvases c).height
        m.current := by
  unfold redraw redrawCalls
  rw [hctx, hcanvas, hs]
  dsimp only
  split
  · simp [World.log, Host.putImageData]
  · simp [World.log, World.setScratch, Scratch.putImageData]

theorem redraw_scratch_some (cl : Closure) (m : Model) (w : World) (s : Scratch)
    (hs : w.scratch = some s) : ∃ s2, (redraw cl m w).2.scratch = some s2 := by
  unfold redraw
  cases cl.ctx with
  | none => exact ⟨s, hs⟩
  | some k =>
    cases cl.canvas with
    | none => exact ⟨s, hs⟩
    | some c =>
      dsimp only
      split
      · exact ⟨s, by simp [World.log, Host.putImageData, hs]⟩
      · rw [hs]
        exact ⟨_, rfl⟩

theorem redraw_no_user_hook (cl : Closure) (m : Model) (w : World) :
    ∀ c ∈ (redraw cl m w).2.trace.drop w.trace.length, c.isUserHook = false := by
  unfold redraw
  cases cl.ctx with
  | none => simp
  | some k =>
    cases cl.canvas with
    | none => simp
    | some c =>
      dsimp only
      split
      · simp [World.log, Host.putImageData, Call.isUserHook]
      · cases w.scratch with
        | none => simp
        | some s =>
          simp [World.log, World.setScratch, Scratch.putImageData, Call.isUserHook]

theorem userStage_scratch (env : Env) (opts : Options) (m : Model) (step : Nat)
    (w : World) : (userStage env opts m step w).2.scratch = w.scratch := by
  unfold userStage
  split
  · rfl
  · split
    · split
      · rfl
      · rfl
    · rfl

theorem onStep_of_userStage_ok (env : Env) (opts : Options) (cl : Closure) (m : Model)
    (step : Nat) (w : World) (hok : (userStage env opts m step w).1 = .ok ()) :
    onStep env opts cl m step w = redraw cl m (userStage env opts m step w).2 := by
  unfold onStep
  split
  · rename_i heq
    rw [heq] at hok
    cases hok
  · rename_i heq
    rw [heq]

theorem onStep_host (env : Env) (opts : Options) (cl : Closure) (m : Model) (step : Nat)
    (w : World) :
    (onStep env opts cl m step w).2.host = (userStage env opts m step w).2.host := by
  unfold onStep
  split
  · rename_i heq
    rw [heq]
  · rename_i heq
    rw [heq]
    exact redraw_host cl m _

theorem userStage_without_hook (env : Env) (opts : Options) (m : Model) (step : Nat)
    (w : World) (v : Value) (hv : opts.read "step" = .ok v) (hf : truthy v = false) :
    userStage env opts m step w = (.ok (), w) := by
  unfold userStage
  rw [hv]
  simp [hf]

/-! ## Claims on the composed step hook -/

/-- C2: when the function installed as the user hook (`opts.step`, the name line 67
reads) is called and fails with error `e`, the composed step hook fails with the same
`e`; the only call it has issued is the user hook itself, so no `putImageData`, no
`drawImage` and no scratch resize happens, the scratch canvas is untouched, and every
canvas the user hook left alone has the content it had before the step. -/
theorem C2_user_hook_failure_skips_redraw (env : Env) (opts : Options) (cl : Closure)
    (m : Model) (step : Nat) (w : World) (f : Nat) (e : Err)
    (hhook : opts.read "step" = .ok (.function f))
    (hfail : (env.callFunction f m step w.host).1 = .error e) :
    onStep env opts cl m step w =
      (.error e, ⟨(env.callFunction f m step w.host).2, w.scratch,
        w.trace ++ [Call.userHook f m step]⟩) ∧
    (∀ c ∈ (onStep env opts cl m step w).2.trace.drop w.trace.length,
      c.isRedraw = false) ∧
    (onStep env opts cl m step w).2.scratch = w.scratch ∧
    (∀ j, (env.callFunction f m step w.host).2.canvases j = w.host.canvases j →
      (onStep env opts cl m step w).2.host.canvases j = w.host.canvases j) := by
  have key : onStep env opts cl m step w =
      (.error e, ⟨(env.callFunction f m step w.host).2, w.scratch,
        w.trace ++ [Call.userHook f m step]⟩) := by
    unfold onStep userStage
    rw [hhook]
    simp only [truthy, if_true, World.log, World.setHost]
    rw [hfail]
  rw [key]
  refine ⟨rfl, ?_, rfl, fun j hj => hj⟩
  simp [Call.isRedraw]

/-- Witness of C2: function 1 of the sample collaborators fails with `external 9`. -/
theorem C2_user_hook_failure_witness :
    onStep sampleEnv (.record [("step", .function 1)]) ⟨some 0, some 0⟩ sampleModel 3
        sampleWorld =
      (.error (.external 9), ⟨sampleHost, some Scratch.blank,
        [Call.userHook 1 sampleModel 3]⟩) :=
  (C2_user_hook_failure_skips_redraw sampleEnv (.record [("step", .function 1)])
    ⟨some 0, some 0⟩ sampleModel 3 sampleWorld 1 (.external 9) rfl rfl).1

/-- C3, as the code behaves: the composed step hook reads the user hook from
`opts.step` only.  Supplying (or changing) the documented option `onStep` never
changes what the composed step hook does; and for a configuration without a `step`
option, whatever it supplies as `onStep`, the composed step hook is the redraw alone
and calls no user hook. -/
theorem C3_documented_hook_is_not_called (env : Env) (props : List (String × Value))
    (cl : Closure) (m : Model) (step : Nat) (w : World)
    (hstep : lookupProp "step" props = none) :
    onStep env (.record props) cl m step w = redraw cl m w ∧
    (∀ c ∈ (onStep env (.record props) cl m step w).2.trace.drop w.trace.length,
      c.isUserHook = false) ∧
    (∀ (v : Value) (ps : List (String × Value)),
      onStep env (.record (("onStep", v) :: ps)) cl m step w =
        onStep env (.record ps) cl m step w) := by
  have key : onStep env (.record props) cl m step w = redraw cl m w := by
    unfold onStep userStage
    simp [Options.read, hstep, truthy]
  refine ⟨key, ?_, ?_⟩
  · rw [key]
    exact redraw_no_user_hook cl m w
  · intro v ps
    have hk : ("onStep" : String) ≠ "step" := by decide
    unfold onStep userStage
    simp only [Options.read, lookupProp, if_neg hk]

/-- Witness of C3: the hook documented as `onStep` is function 1, which would fail
with `external 9` if it were called; the composed hook goes straight to the redraw,
and the only call it issues is the direct write. -/
theorem C3_documented_hook_witness :
    onStep sampleEnv
        (.record [("input", .string "a.png"), ("output", .canvas 0),
          ("onStep", .function 1)])
        ⟨some 0, some 0⟩ sampleModel 0 sampleWorld =
      (.error offsetRequired, ⟨sampleHost, some Scratch.blank,
        [Call.putImageData (.canvas 0) sampleRaster none]⟩) :=
  (C3_documented_hook_is_not_called sampleEnv
    [("input", .string "a.png"), ("output", .canvas 0), ("onStep", .function 1)]
    ⟨some 0, some 0⟩ sampleModel 0 sampleWorld rfl).1.trans rfl

/-- C4, as the code behaves: when the surface has the size of `model.current`, the
redraw leaves the scratch canvas alone and issues exactly one call,
`putImageData(model.current)` on the paint context `ctx`.  The call carries no
`dx, dy`, so it throws and nothing is painted: no write at offset (0,0) is issued. -/
theorem C4_fast_path_write_has_no_offset (cl : Closure) (m : Model) (w : World)
    (k c : Nat) (hctx : cl.ctx = some k) (hcanvas : cl.canvas = some c)
    (hw : (w.host.canvases c).width = m.current.width)
    (hh : (w.host.canvases c).height = m.current.height) :
    redraw cl m w =
      (.error offsetRequired, ⟨w.host, w.scratch,
        w.trace ++ [Call.putImageData (.canvas k) m.current none]⟩) ∧
    (∀ x ∈ (redraw cl m w).2.trace.drop w.trace.length,
      x ≠ Call.putImageData (.canvas k) m.current (some (0, 0))) := by
  have key : redraw cl m w =
      (.error offsetRequired, ⟨w.host, w.scratch,
        w.trace ++ [Call.putImageData (.canvas k) m.current none]⟩) := by
    unfold redraw
    rw [hctx, hcanvas]
    simp [hw, hh, World.log, Host.putImageData]
  rw [key]
  refine ⟨rfl, ?_⟩
  simp

/-- Witness of C4: canvas 0 of the sample host is 2 x 2, like the sample raster. -/
theorem C4_fast_path_witness :
    redraw ⟨some 0, some 0⟩ sampleModel sampleWorld =
      (.error offsetRequired, ⟨sampleHost, some Scratch.blank,
        [Call.putImageData (.canvas 0) sampleRaster none]⟩) :=
  (C4_fast_path_write_has_no_offset ⟨some 0, some 0⟩ sampleModel sampleWorld 0 0
    rfl rfl rfl rfl).1

/-- C5, as the code behaves: when the width or the height of the surface differs from
that of `model.current`, the redraw resizes the scratch canvas to the raster width
and height and calls `putImageData(model.current)` on its context; the call carries
no `dx, dy`, so it throws: nothing is written into the scratch canvas, no `drawImage`
is issued and the surface keeps the content it had. -/
theorem C5_slow_path_stops_before_blit (cl : Closure) (m : Model) (w : World)
    (k c : Nat) (s : Scratch) (hctx : cl.ctx = some k) (hcanvas : cl.canvas = some c)
    (hs : w.scratch = some s)
    (hne : (w.host.canvases c).width ≠ m.current.width ∨
      (w.host.canvases c).height ≠ m.current.height) :
    redraw cl m w =
      (.error offsetRequired,
        ⟨w.host, some ⟨m.current.width, m.current.height, []⟩,
          w.trace ++
            [Call.setWidth .scratch m.current.width,
             Call.setHeight .scratch m.current.height,
             Call.getContext .scratch,
             Call.putImageData .scratch m.current none]⟩) ∧
    (∀ x ∈ (redraw cl m w).2.trace.drop w.trace.length, x.isDrawImage = false) ∧
    ((redraw cl m w).2.host.canvases k).paint = (w.host.canvases k).paint := by
  have hcond : ¬ ((w.host.canvases c).width = m.current.width ∧
      (w.host.canvases c).height = m.current.height) := by
    intro h
    cases hne with
    | inl h1 => exact h1 h.1
    | inr h2 => exact h2 h.2
  have key : redraw cl m w =
      (.error offsetRequired,
        ⟨w.host, some ⟨m.current.width, m.current.height, []⟩,
          w.trace ++
            [Call.setWidth .scratch m.current.width,
             Call.setHeight .scratch m.current.height,
             Call.getContext .scratch,
             Call.putImageData .scratch m.current none]⟩) := by
    unfold redraw
    rw [hctx, hcanvas, hs]
    simp [hcond, World.log, World.setScratch, Scratch.setWidth, Scratch.setHeight,
      Scratch.putImageData]
  rw [key]
  refine ⟨rfl, ?_, rfl⟩
  simp [Call.isDrawImage]

/-- Witness of C5: canvas 1 of the sample host is 4 x 3, the sample raster is 2 x 2. -/
theorem C5_slow_path_witness :
    redraw ⟨some 1, some 1⟩ sampleModel sampleWorld =
      (.error offsetRequired,
        ⟨sampleHost, some ⟨2, 2, []⟩,
          [Call.setWidth .scratch 2, Call.setHeight .scratch 2,
           Call.getContext .scratch,
           Call.putImageData .scratch sampleRaster none]⟩) :=
  (C5_slow_path_stops_before_blit ⟨some 1, some 1⟩ sampleModel sampleWorld 1 1
    Scratch.blank rfl rfl rfl (Or.inl (by decide))).1

/-- Counterexample to C10 as stated: the user hook is part of the composed step hook,
and a user hook that resizes the page (function 3 of the sample collaborators) leaves
canvas 1 with another size than it had before the step. -/
theorem C10_user_hook_can_resize_surface :
    (onStep sampleEnv (.record [("step", .function 3)]) ⟨some 1, some 1⟩ sampleModel 0
        sampleWorld).2.host.size 1 = (2, 2) ∧
    sampleWorld.host.size 1 = (4, 3) ∧
    (onStep sampleEnv (.record [("step", .function 3)]) ⟨some 1, some 1⟩ sampleModel 0
        sampleWorld).2.host.size 1 ≠ sampleWorld.host.size 1 := by
  refine ⟨rfl, rfl, ?_⟩
  intro h
  have h1 : (onStep sampleEnv (.record [("step", .function 3)]) ⟨some 1, some 1⟩
      sampleModel 0 sampleWorld).2.host.size 1 = (2, 2) := rfl
  have h2 : sampleWorld.host.size 1 = (4, 3) := rfl
  rw [h1, h2] at h
  cases h

/-- C10, amended: the redraw stage of the composed step hook never assigns the width
or height of a host canvas, so after the step every host canvas has exactly the size
the user hook left it with, hence the size it had before the step whenever the user
hook leaves it alone or no user hook is installed.  When the user hook has completed,
the calls the composed hook then issues (the direct write on `ctx`, or the resize of
the scratch canvas to the raster size followed by the write on its context) are the
ones determined by the surface size in the world of that very step, as the user
hook left it. -/
theorem C10_redraw_keeps_size_and_rereads_it (env : Env) (opts : Options) (cl : Closure)
    (m : Model) (step : Nat) (w : World) :
    (∀ j, (onStep env opts cl m step w).2.host.size j =
      (userStage env opts m step w).2.host.size j) ∧
    (∀ j, (userStage env opts m step w).2.host.size j = w.host.size j →
      (onStep env opts cl m step w).2.host.size j = w.host.size j) ∧
    (∀ v, opts.read "step" = .ok v → truthy v = false →
      ∀ j, (onStep env opts cl m step w).2.host.size j = w.host.size j) ∧
    (∀ k c s, cl.ctx = some k → cl.canvas = some c → w.scratch = some s →
      (userStage env opts m step w).1 = .ok () →
      (onStep env opts cl m step w).2.trace =
        (userStage env opts m step w).2.trace ++
          redrawCalls k ((userStage env opts m step w).2.host.canvases c).width
            ((userStage env opts m step w).2.host.canvases c).height m.current) := by
  refine ⟨?_, ?_, ?_, ?_⟩
  · intro j
    rw [onStep_host]
  · intro j hj
    rw [onStep_host, hj]
  · intro v hv hf j
    rw [onStep_host, userStage_without_hook env opts m step w v hv hf]
  · intro k c s hk hc hs hok
    rw [onStep_of_userStage_ok env opts cl m step w hok]
    exact redraw_trace cl m _ k c s hk hc ((userStage_scratch env opts m step w).trans hs)

/-- Witness of C10: canvas 1 of the sample host is 4 x 3, so the first step on the
2 x 2 sample raster resizes the scratch canvas; the host then resizes its canvases to
2 x 2, and the next step issues the direct write. -/
theorem C10_resize_between_steps_witness :
    (onStep sampleEnv (.record []) ⟨some 1, some 1⟩ sampleModel 1
        ((onStep sampleEnv (.record []) ⟨some 1, some 1⟩ sampleModel 0
          sampleWorld).2.setHost (shrinkAll sampleHost))).2.trace =
      [Call.setWidth .scratch 2, Call.setHeight .scratch 2, Call.getContext .scratch,
       Call.putImageData .scratch sampleRaster none,
       Call.putImageData (.canvas 1) sampleRaster none] :=
  ((C10_redraw_keeps_size_and_rereads_it sampleEnv (.record []) ⟨some 1, some 1⟩
    sampleModel 1
    ((onStep sampleEnv (.record []) ⟨some 1, some 1⟩ sampleModel 0
      sampleWorld).2.setHost (shrinkAll sampleHost))).2.2.2 1 1 ⟨2, 2, []⟩
    rfl rfl rfl rfl).trans rfl

/-! ## Lemmas on the entry point -/

theorem getContext2d_ok (v : Value) (ctx : Option Nat) (h : getContext2d v = .ok ctx) :
    ∃ k, v = .canvas k ∧ ctx = some k := by
  cases v <;> simp [getContext2d] at h
  case canvas id => exact ⟨id, rfl, h.symm⟩

theorem resolve_trace (env : Env) (input output : Value) (rest : List (String × Value))
    (w : World) :
    w.trace <+: (resolve env input output rest w).2.trace ∧
      ∀ c ∈ (resolve env input output rest w).2.trace.drop w.trace.length,
        c.isEngine = false ∧ c.isRedraw = false ∧ c.isUserHook = false := by
  unfold resolve
  dsimp only
  split
  · simp [World.log, World.setHost, Call.isEngine, Call.isRedraw, Call.isUserHook]
  · split
    · simp [World.log, World.setHost, Call.isEngine, Call.isRedraw, Call.isUserHook]
    · split
      · simp [World.log, World.setHost, Call.isEngine, Call.isRedraw, Call.isUserHook]
      · split <;> split <;> (try split) <;>
          simp [World.log, World.setHost, World.setScratch, Call.isEngine,
            Call.isRedraw, Call.isUserHook]

theorem resolve_ok (env : Env) (input output : Value) (rest : List (String × Value))
    (w : World) (p : Prepared) (w1 : World)
    (h : resolve env input output rest w = (.ok p, w1)) :
    p.rest = rest ∧
    (env.loadImage input w.host).1 = .ok p.target ∧
    (∃ k, output = .canvas k ∧ p.closure.ctx = some k) := by
  unfold resolve at h
  dsimp only at h
  split at h
  · simp at h
  · rename_i target h1 hload
    split at h
    · simp at h
    · split at h
      · simp at h
      · rename_i ctx hctx
        obtain ⟨k, hk, hk2⟩ := getContext2d_ok _ _ hctx
        subst hk2
        have hl : (env.loadImage input w.host).1 = .ok target := by
          have : (w.log (Call.loadImage input)).host = w.host := rfl
          rw [this] at hload
          rw [hload]
        dsimp only at h
        split at h
        · simp at h
        · simp only [Prod.mk.injEq, Except.ok.injEq] at h
          obtain ⟨hp, _⟩ := h
          subst hp
          exact ⟨rfl, hl, k, hk, rfl⟩

theorem setup_record (env : Env) (props : List (String × Value)) (w : World) :
    setup env (.record props) w = (.error labelIsNotAFunction, w) := by
  unfold setup
  simp [destructure, OwValue.label, ow, OwPredicate.holds, owObject]

theorem setup_rejects (env : Env) (opts : Options) (w : World) :
    ∃ e, setup env opts w = (.error e, w) := by
  cases opts with
  | record props => exact ⟨_, setup_record env props w⟩
  | other v =>
    unfold setup
    cases v <;>
      simp [destructure, OwValue.label, ow, OwPredicate.holds, owObject]

theorem primitive_of_setup_error (env : Env) (opts : Options) (w : World) (e : Err)
    (w1 : World) (h : setup env opts w = (.error e, w1)) :
    primitive env opts w = (.error e, w1) := by
  unfold primitive
  rw [h]

theorem primitive_rejects (env : Env) (opts : Options) (w : World) :
    ∃ e, primitive env opts w = (.error e, w) := by
  obtain ⟨e, he⟩ := setup_rejects env opts w
  exact ⟨e, primitive_of_setup_error env opts w e w he⟩

theorem primitive_record (env : Env) (props : List (String × Value)) (w : World) :
    primitive env (.record props) w = (.error labelIsNotAFunction, w) :=
  primitive_of_setup_error env _ w _ w (setup_record env props w)

/-! ## Claims on the entry point -/

/-- C6, as the code behaves: lines 50-54 call `.label('input')` on the value of
`ow.any(...)`, which has no such method, so every configuration object, whatever its
`input` (the empty string included), is rejected with a `TypeError` and never with the
validator error labelled `input`.  The world is exactly the one the call started in:
no image load, no surface lookup and no engine call has been issued. -/
theorem C6_input_validator_raises_type_error (env : Env) (props : List (String × Value))
    (w : World) :
    primitive env (.record props) w = (.error labelIsNotAFunction, w) ∧
    (∀ label, (primitive env (.record props) w).1 ≠ .error (.argumentError label)) ∧
    (primitive env (.record props) w).2.trace = w.trace := by
  rw [primitive_record]
  refine ⟨rfl, ?_, rfl⟩
  intro label h
  simp [labelIsNotAFunction] at h

/-- Witness of C6: the configuration whose `input` is the empty string. -/
theorem C6_empty_string_witness :
    primitive sampleEnv (.record [("input", .string "")]) sampleWorld =
      (.error (.typeError "ow.any(...).label is not a function"), sampleWorld) :=
  (C6_input_validator_raises_type_error sampleEnv [("input", .string "")] sampleWorld).1

/-- C8, as the code behaves: `undefined` and `null` are rejected by the destructuring
of line 43 with a `TypeError`, before the validator runs; only the other non-objects
reach the validator and are rejected with the error labelled `opts`.  In every case
the world is untouched. -/
theorem C8_undefined_and_null_raise_type_error (env : Env) (w : World) :
    primitive env (.other .undefined) w =
      (.error (.typeError "cannot destructure undefined"), w) ∧
    primitive env (.other .null) w =
      (.error (.typeError "cannot destructure null"), w) ∧
    (∀ v, v ≠ .undefined → v ≠ .null → owObject (.other v) = false →
      primitive env (.other v) w = (.error (.argumentError "opts"), w)) := by
  refine ⟨rfl, rfl, ?_⟩
  intro v h1 h2 hv
  apply primitive_of_setup_error
  unfold setup
  cases v <;> simp_all [destructure, OwValue.label, ow, OwPredicate.holds]

/-- C1, as the code behaves: with `output` absent the entry point always rejects,
whatever the collaborators are; the engine is not invoked and no drawing call is
issued.  This holds of lines 56-60 on their own as well: with `output` absent they
reject for every input, because line 58 reads `getContext` of `undefined` when
nothing failed before. -/
theorem C1_absent_output_rejects (env : Env) (props : List (String × Value)) (w : World)
    (hout : (lookupProp "output" props).getD .undefined = .undefined) :
    (∃ e, (primitive env (.record props) w).1 = .error e) ∧
    (∀ c ∈ (primitive env (.record props) w).2.trace.drop w.trace.length,
      c.isEngine = false ∧ c.isRedraw = false) ∧
    (∀ (input : Value) (rest : List (String × Value)) (w2 : World),
      (∃ e, (resolve env input ((lookupProp "output" props).getD .undefined) rest
        w2).1 = .error e) ∧
      ∀ c ∈ (resolve env input ((lookupProp "output" props).getD .undefined) rest
          w2).2.trace.drop w2.trace.length,
        c.isEngine = false ∧ c.isRedraw = false) := by
  refine ⟨?_, ?_, ?_⟩
  · rw [primitive_record]
    exact ⟨_, rfl⟩
  · rw [primitive_record]
    simp
  · intro input rest w2
    rw [hout]
    constructor
    · cases hs : resolve env input .undefined rest w2 with
      | mk r w3 =>
        cases r with
        | ok p =>
          obtain ⟨_, _, k, hk, _⟩ := resolve_ok env input .undefined rest w2 p w3 hs
          cases hk
        | error e => exact ⟨e, rfl⟩
    · intro c hc
      have ht := (resolve_trace env input .undefined rest w2).2 c hc
      exact ⟨ht.1, ht.2.1⟩

/-- Witness of C1: a configuration without `output`.  The run rejects at lines 50-54;
lines 56-60, run on their own with the sample loader and resolver, reject with the
`TypeError` of line 58. -/
theorem C1_absent_output_witness :
    primitive sampleEnv (.record [("input", .string "a.png")]) sampleWorld =
      (.error labelIsNotAFunction, sampleWorld) ∧
    resolve sampleEnv (.string "a.png") .undefined [] sampleWorld =
      (.error (.typeError "cannot read properties of undefined"),
        ⟨sampleHost, some Scratch.blank,
          [Call.loadImage (.string "a.png"), Call.loadCanvas .undefined]⟩) ∧
    ∃ e, (primitive sampleEnv (.record [("input", .string "a.png")]) sampleWorld).1 =
      .error e :=
  ⟨rfl, rfl, (C1_absent_output_rejects sampleEnv [("input", .string "a.png")]
    sampleWorld rfl).1⟩

/-- C7, as the code behaves: when `output` is a selector string, the run always
rejects and the engine is never invoked.  Lines 56-60 on their own reject as well:
when the input was loaded and the selector resolved to an existing canvas, they
reject with the `TypeError` of line 58 (a string has no `getContext`), right after
the surface lookup. -/
theorem C7_selector_output_rejects (env : Env) (props : List (String × Value))
    (rest : List (String × Value)) (w : World) (s : String) (t : Raster) (h1 h2 : Host)
    (c : Nat)
    (hout : lookupProp "output" props = some (.string s))
    (hload : env.loadImage ((lookupProp "input" props).getD .undefined) w.host =
      (.ok t, h1))
    (hres : env.loadCanvas (.string s) h1 = (.ok (some c), h2)) :
    resolve env ((lookupProp "input" props).getD .undefined)
        ((lookupProp "output" props).getD .undefined) rest w =
      (.error (.typeError "output.getContext is not a function"),
        ⟨h2, w.scratch, w.trace ++
          [Call.loadImage ((lookupProp "input" props).getD .undefined),
           Call.loadCanvas (.string s)]⟩) ∧
    (∀ (env2 : Env) (w2 : World),
      ∃ e, (primitive env2 (.record props) w2).1 = .error e) ∧
    (∀ (env2 : Env) (w2 : World),
      ∀ x ∈ (primitive env2 (.record props) w2).2.trace.drop w2.trace.length,
        x.isEngine = false ∧ x.isRedraw = false) := by
  refine ⟨?_, ?_, ?_⟩
  · unfold resolve
    simp only [hout, Option.getD_some, World.log, World.setHost, hload, hres,
      getContext2d]
    simp
  · intro env2 w2
    rw [primitive_record]
    exact ⟨_, rfl⟩
  · intro env2 w2
    rw [primitive_record]
    simp

/-- Witness of C7: the selector `#out` resolves to canvas 0 of the sample host. -/
theorem C7_selector_output_witness :
    resolve sampleEnv (.string "a.png") (.string "#out") [] sampleWorld =
      (.error (.typeError "output.getContext is not a function"),
        ⟨sampleHost, some Scratch.blank,
          [Call.loadImage (.string "a.png"), Call.loadCanvas (.string "#out")]⟩) :=
  (C7_selector_output_rejects sampleEnv
    [("input", .string "a.png"), ("output", .string "#out")] [] sampleWorld "#out"
    sampleRaster sampleHost sampleHost 0 rfl rfl rfl).1

/-- C9, as the code behaves: the entry point never reaches the engine call.  Every
argument is rejected with the world untouched, and every configuration object is
rejected at lines 50-54 with the `TypeError` of calling `.label` on the value of
`ow.any(...)`; no engine invocation is issued. -/
theorem C9_engine_is_never_invoked (env : Env) (opts : Options) (w : World) :
    (∃ e, primitive env opts w = (.error e, w)) ∧
    (∀ props, primitive env (.record props) w = (.error labelIsNotAFunction, w)) ∧
    (∀ c ∈ (primitive env opts w).2.trace.drop w.trace.length, c.isEngine = false) := by
  refine ⟨primitive_rejects env opts w, fun props => primitive_record env props w, ?_⟩
  obtain ⟨e, he⟩ := primitive_rejects env opts w
  rw [he]
  simp

/-- Witness of C9: a URL as input, a canvas element as output, `numSteps: 10`; the
sample engine is never called. -/
theorem C9_engine_is_never_invoked_witness :
    primitive sampleEnv (.record canvasConfig) sampleWorld =
      (.error (.typeError "ow.any(...).label is not a function"), sampleWorld) :=
  (C9_engine_is_never_invoked sampleEnv (.record canvasConfig) sampleWorld).2.1
    canvasConfig

/-! ## Further properties -/

/-- The object literal of lines 62-66 sets `context`, `target` and `onStep` and passes
every other key of `rest` with the value it has there. -/
theorem engineArgs_forwards (env : Env) (opts : Options) (p : Prepared) :
    lookupProp "target" (engineArgs env opts p) = some (ArgValue.target p.target) ∧
    lookupProp "context" (engineArgs env opts p) = some ArgValue.contextModule ∧
    lookupProp "onStep" (engineArgs env opts p) =
      some (ArgValue.stepHook (onStep env opts p.closure)) ∧
    (∀ k, k ≠ "onStep" → k ≠ "target" → k ≠ "context" →
      lookupProp k (engineArgs env opts p) =
        (lookupProp k p.rest).map ArgValue.value) := by
  refine ⟨?_, ?_, ?_, ?_⟩
  · unfold engineArgs
    rw [lookupProp_setProp_ne _ _ _ _ (by decide), lookupProp_setProp_self]
  · unfold engineArgs
    rw [lookupProp_setProp_ne _ _ _ _ (by decide),
      lookupProp_setProp_ne _ _ _ _ (by decide), lookupProp_setProp_self]
  · unfold engineArgs
    rw [lookupProp_setProp_self]
  · intro k h1 h2 h3
    unfold engineArgs
    rw [lookupProp_setProp_ne _ _ _ _ h1, lookupProp_setProp_ne _ _ _ _ h2,
      lookupProp_setProp_ne _ _ _ _ h3, lookupProp_map]

/-- The destructuring of lines 43-47 keeps in `rest` every own option other than
`input` and `output`, with its value. -/
theorem destructure_rest (props : List (String × Value)) (k : String)
    (h1 : k ≠ "input") (h2 : k ≠ "output") :
    ∃ input output rest, destructure (.record props) = .ok (input, output, rest) ∧
      lookupProp k rest = lookupProp k props :=
  ⟨_, _, _, rfl,
    lookupProp_filter k (fun s => decide (s ≠ "input" ∧ s ≠ "output")) props
      (by simp [h1, h2])⟩

/-- When the configuration supplies its hook as `step` and the hook succeeds, the
composed step hook calls it, with the model and step index it was given, and goes on
to the redraw in the world the hook left. -/
theorem step_hook_runs_before_redraw (env : Env) (opts : Options) (cl : Closure)
    (m : Model) (step : Nat) (w : World) (f : Nat) (h1 : Host)
    (hhook : opts.read "step" = .ok (.function f))
    (hok : env.callFunction f m step w.host = (.ok (), h1)) :
    onStep env opts cl m step w =
      redraw cl m ⟨h1, w.scratch, w.trace ++ [Call.userHook f m step]⟩ := by
  unfold onStep userStage
  rw [hhook]
  simp only [truthy, if_true, World.log, World.setHost]
  rw [hok]

end Primitive
